import Mathlib

/-!
Shallow embedding of the batch queue controller of `src/main.py` (a
Telegram video-batch bot).  The global Python dict `current_batch`
becomes the `Batch` structure; the observable Telegram side effects
become an explicit, ordered `Event` list; the external fetch/publish
calls (yt-dlp download, `send_video`) become an `ItemOutcome` oracle
supplied per locator.  Integer fields are `Nat` (non-negative Python
ints), except the caption counter, which the source decrements before
testing `<= 0` and is therefore kept as `Int`.
-/

/-- `current_batch['caption_settings']` (src/main.py lines 45-49). -/
structure CaptionSettings where
  active : Bool
  remaining : Int
  text : Option String
  deriving DecidableEq

/-- The global `current_batch` dict (src/main.py lines 33-50).
`start_time` (a wall-clock datetime, used only for the elapsed-time text
of the final summary) is not modelled; `status_message_id` keeps only
whether a live status message currently exists. -/
structure Batch where
  all_links : List String
  processed : Nat
  failed : List String
  remaining : List String
  user_id : Option Nat
  last_processed_link : Option String
  is_processing : Bool
  is_paused : Bool
  status_message_id : Option Unit
  last_auto_send : Nat
  caption_settings : CaptionSettings
  deriving DecidableEq

/-- One observable Telegram-side effect, in emission order. -/
inductive Event where
  | statusNew : Event
  | statusEdit : Event
  | completion (url : String) (success : Bool) (errorMsg : String) : Event
  | autoReport (links : List String) : Event
  | captionDisabled : Event
  | videoSent (caption : Option String) : Event
  | skippedArtifact (links : List String) : Event
  | finalSummary (successCount failedCount : Nat) : Event
  | reply (noop : Bool) : Event
  deriving DecidableEq

/-- Outcome of the external fetch/publish calls for one item.
`VideoDownloader.get_highest_quality_video` (src/main.py lines 74-137)
returns `None` both on the size-limit checks and on every download
exception, so `process_single_link` only distinguishes: no payload
returned (`fetchNone`, reported as the size-limit message), a payload
path that does not exist on disk (`fetchMissing`, reported as
"Download failed"), an exception raised by the upload
(`publishError msg`, the `except` branch), and success (`published`). -/
inductive ItemOutcome where
  | fetchNone
  | fetchMissing
  | publishError (msg : String)
  | published
  deriving DecidableEq

/-- The reset value: the module-level initializer (lines 33-50), also the
record written back by `clear_queue` (lines 453-470). -/
def emptyBatch : Batch :=
  { all_links := [], processed := 0, failed := [], remaining := [],
    user_id := none, last_processed_link := none, is_processing := false,
    is_paused := false, status_message_id := none, last_auto_send := 0,
    caption_settings := { active := false, remaining := 0, text := none } }

/-- `s.startswith(p)` computed over the underlying character list (the
core `String.startsWith` is not kernel-reducible). -/
def strStartsWith (s p : String) : Bool :=
  p.data.isPrefixOf s.data

/-- The scheme check of the loop body (src/main.py line 642):
`url.startswith('http://') or url.startswith('https://')`. -/
def validScheme (url : String) : Bool :=
  strStartsWith url "http://" || strStartsWith url "https://"

/-- `update_status_message` (lines 163-179): edit the live status message
in place when one exists, otherwise send a new one and record its handle. -/
def update_status_message (b : Batch) : Batch × Event :=
  match b.status_message_id with
  | some _ => (b, Event.statusEdit)
  | none => ({ b with status_message_id := some () }, Event.statusNew)

/-- `send_remain_links` (lines 473-507): the automatic remaining-list
artifact.  Returns unchanged with no emission when the queue is empty or
no owner id is recorded, or when fewer than 5 items were processed since
the last auto-send; otherwise moves the watermark to `processed` and
emits the artifact. -/
def send_remain_links (b : Batch) : Batch × List Event :=
  if b.remaining = [] ∨ b.user_id = none then (b, [])
  else if (b.processed : Int) - (b.last_auto_send : Int) < 5 then (b, [])
  else ({ b with last_auto_send := b.processed }, [Event.autoReport b.remaining])

/-- `send_completion_notification` (lines 181-212): emit the immutable
per-item completion message, drop the live-status handle, then run the
auto-report check, gated on `processed > 0 and processed % 5 == 0`
(line 209) before `send_remain_links` applies its own watermark test. -/
def send_completion_notification (b : Batch) (url : String) (success : Bool)
    (errorMsg : String) : Batch × List Event :=
  let processed := b.processed
  let b1 := { b with status_message_id := none }
  if 0 < processed ∧ processed % 5 = 0 then
    let r := send_remain_links b1
    (r.1, Event.completion url success errorMsg :: r.2)
  else
    (b1, [Event.completion url success errorMsg])

/-- The caption-policy block inside `process_single_link`
(lines 576-587): executed after a successful download just before
`send_video`.  Snapshots the caption text, decrements the use counter,
and deactivates (emitting the one-time notice) when it reaches zero.
Returns the caption passed to the upload. -/
def apply_caption_policy (b : Batch) : Batch × List Event × Option String :=
  if b.caption_settings.active then
    let caption := b.caption_settings.text
    let r := b.caption_settings.remaining - 1
    if r ≤ 0 then
      ({ b with caption_settings :=
          { b.caption_settings with active := false, remaining := r } },
        ([Event.captionDisabled], caption))
    else
      ({ b with caption_settings := { b.caption_settings with remaining := r } },
        ([], caption))
  else
    (b, ([], none))

/-- `process_single_link` (lines 509-623), with the external calls
replaced by an `ItemOutcome`.  Returns the new state, the emitted events
in order, and the boolean result of the function. -/
def process_single_link (url : String) (o : ItemOutcome) (b : Batch) :
    Batch × List Event × Bool :=
  let b0 := { b with last_processed_link := some url }
  let s0 := update_status_message b0
  match o with
  | ItemOutcome.fetchNone =>
      let s1 := update_status_message s0.1
      let b2 := { s1.1 with failed := s1.1.failed ++ [url] }
      let r := send_completion_notification b2 url false "Video exceeds 49MB limit"
      (r.1, ([s0.2, s1.2] ++ r.2, false))
  | ItemOutcome.fetchMissing =>
      let s1 := update_status_message s0.1
      let b2 := { s1.1 with failed := s1.1.failed ++ [url] }
      let r := send_completion_notification b2 url false "Download failed"
      (r.1, ([s0.2, s1.2] ++ r.2, false))
  | ItemOutcome.publishError msg =>
      let s1 := update_status_message s0.1
      let s2 := update_status_message s1.1
      let c := apply_caption_policy s2.1
      let s3 := update_status_message c.1
      let b2 := { s3.1 with failed := s3.1.failed ++ [url] }
      let r := send_completion_notification b2 url false msg
      (r.1, ([s0.2, s1.2, s2.2] ++ c.2.1 ++ [s3.2] ++ r.2, false))
  | ItemOutcome.published =>
      let s1 := update_status_message s0.1
      let s2 := update_status_message s1.1
      let c := apply_caption_policy s2.1
      let b2 := { c.1 with processed := c.1.processed + 1 }
      let r := send_completion_notification b2 url true ""
      (r.1, ([s0.2, s1.2, s2.2] ++ c.2.1 ++ [Event.videoSent c.2.2] ++ r.2, true))

/-- The `while current_batch['remaining']` loop of `process_batch`
(lines 631-647), run sequentially (no interleaved commands): each
iteration removes exactly one element of `remaining`, so fuel equal to
its length suffices.  A paused or cancelled loop makes no further
progress here. -/
def process_batch_iter (oracle : String → ItemOutcome) :
    Nat → Batch → Batch × List Event
  | 0, b => (b, [])
  | fuel + 1, b =>
    match b.remaining with
    | [] => (b, [])
    | url :: _ =>
      if b.is_paused then (b, [])
      else if b.is_processing = false then (b, [])
      else if validScheme url = false then
        process_batch_iter oracle fuel { b with remaining := b.remaining.erase url }
      else
        let r := process_single_link url (oracle url) b
        let b2 := { r.1 with remaining := r.1.remaining.erase url }
        let rest := process_batch_iter oracle fuel b2
        (rest.1, r.2.1 ++ rest.2)

/-- `process_batch` (lines 625-669): set `is_processing`, drain the
queue, emit the final summary when the run was not cancelled, and in the
`finally` clause clear `is_processing` and the live-status handle. -/
def process_batch (oracle : String → ItemOutcome) (b : Batch) :
    Batch × List Event :=
  let b0 := { b with is_processing := true }
  let r := process_batch_iter oracle b0.remaining.length b0
  let evs :=
    if r.1.is_processing then
      r.2 ++ [Event.finalSummary r.1.processed r.1.failed.length]
    else r.2
  ({ r.1 with is_processing := false, status_message_id := none }, evs)

/-- `pause_processing` (lines 389-409): the `/stopnow` handler. -/
def pause_processing (b : Batch) : Batch × List Event :=
  if b.is_processing = false then (b, [Event.reply true])
  else if b.is_paused then (b, [Event.reply true])
  else
    let b1 := { b with is_paused := true }
    let s := update_status_message b1
    (s.1, [s.2, Event.reply false])

/-- `resume_processing` (lines 411-433): the `/startnow` handler.  Third
component: whether a fresh processing-loop task was created. -/
def resume_processing (b : Batch) : Batch × List Event × Bool :=
  if b.is_paused = false then (b, ([Event.reply true], false))
  else
    let b1 := { b with is_paused := false }
    let p :=
      if b1.is_processing = false then ({ b1 with is_processing := true }, true)
      else (b1, false)
    let s := update_status_message p.1
    (s.1, ([s.2, Event.reply false], p.2))

/-- `clear_queue` (lines 435-471): the `/clean` handler.  Cancels the
in-flight loop task and awaits its exit, then resets every field of the
batch record to the empty value. -/
def clear_queue (b : Batch) : Batch × List Event :=
  if b.remaining = [] then (b, [Event.reply true])
  else (emptyBatch, [Event.reply false])

/-- `skip_links` (lines 297-355) for an already-parsed count `n`.  Third
component: whether a fresh processing-loop task was created. -/
def skip_links (n : Nat) (b : Batch) : Batch × List Event × Bool :=
  if n = 0 then (b, ([Event.reply true], false))
  else if b.is_processing = false then (b, ([Event.reply true], false))
  else if b.remaining.length ≤ n then
    let r := clear_queue b
    (r.1, (Event.reply false :: r.2, false))
  else
    let skipped := b.remaining.take n
    let b1 := { b with
      remaining := b.remaining.drop n,
      processed := b.processed + n,
      is_processing := true }
    (b1, ([Event.skippedArtifact skipped, Event.reply false], true))

/-- `set_caption` (lines 265-295) for already-parsed arguments. -/
def set_caption (n : Nat) (text : String) (b : Batch) : Batch × List Event :=
  if n = 0 ∨ text = "" then (b, [Event.reply true])
  else
    ({ b with caption_settings :=
        { active := true, remaining := (n : Int), text := some text } },
      [Event.reply false])

/-- `add_links_to_queue` (lines 671-719).  Second component: whether a
fresh processing-loop task was created. -/
def add_links_to_queue (links : List String) (uid : Nat) (b : Batch) :
    Batch × Bool :=
  if b.all_links = [] then
    ({ emptyBatch with
        all_links := links,
        remaining := links,
        user_id := some uid,
        is_processing := true }, true)
  else
    let b1 := { b with
      all_links := b.all_links ++ links,
      remaining := b.remaining ++ links }
    if b1.is_processing = false ∧ b1.remaining ≠ [] then
      ({ b1 with is_processing := true }, true)
    else (b1, false)

/-- Control point of the `process_batch` loop task.  `idle`: no loop task
alive; `top`: about to run the while-condition / pause poll / cancel
check / head dispatch; `inItem url`: `process_single_link url` is in
flight (suspended at one of its awaits); `exiting`: past the while loop,
about to run the final report and the `finally` clause. -/
inductive LoopPC where
  | idle
  | top
  | inItem (url : String)
  | exiting
  deriving DecidableEq

/-- A configuration: the shared batch record plus the loop task's control
point. -/
structure Config where
  batch : Batch
  pc : LoopPC
  deriving DecidableEq

/-- Interleaved small-step semantics of the processing loop
(lines 625-669) together with the operator command handlers.  Command
handlers run on the same asyncio event loop and are scheduled whenever
the loop task is suspended at an await (the pause poll sleep, the status
edits, the fetch and upload I/O), so command steps are allowed at any
control point.  `clear_queue` and the skip-all path of `skip_links`
cancel the loop task and await its exit before mutating, so their steps
move the control point to `idle` atomically; the partial-skip path
restarts a fresh task (`top`). -/
inductive Step (oracle : String → ItemOutcome) : Config → Config → Prop where
  | dispatch (b : Batch) (url : String) (rest : List String)
      (h : b.remaining = url :: rest) (hp : b.is_paused = false)
      (ha : b.is_processing = true) (hv : validScheme url = true) :
      Step oracle ⟨b, LoopPC.top⟩ ⟨b, LoopPC.inItem url⟩
  | dropMalformed (b : Batch) (url : String) (rest : List String)
      (h : b.remaining = url :: rest) (hp : b.is_paused = false)
      (ha : b.is_processing = true) (hv : validScheme url = false) :
      Step oracle ⟨b, LoopPC.top⟩
        ⟨{ b with remaining := b.remaining.erase url }, LoopPC.top⟩
  | finishItem (b : Batch) (url : String) :
      Step oracle ⟨b, LoopPC.inItem url⟩
        ⟨{ (process_single_link url (oracle url) b).1 with
            remaining := (process_single_link url (oracle url) b).1.remaining.erase url },
          LoopPC.top⟩
  | loopDone (b : Batch) (h : b.remaining = []) :
      Step oracle ⟨b, LoopPC.top⟩ ⟨b, LoopPC.exiting⟩
  | loopBreak (b : Batch) (h : b.is_processing = false) :
      Step oracle ⟨b, LoopPC.top⟩ ⟨b, LoopPC.exiting⟩
  | loopFinally (b : Batch) :
      Step oracle ⟨b, LoopPC.exiting⟩
        ⟨{ b with is_processing := false, status_message_id := none }, LoopPC.idle⟩
  | cmdPause (b : Batch) (pc : LoopPC) :
      Step oracle ⟨b, pc⟩ ⟨(pause_processing b).1, pc⟩
  | cmdResumeNoStart (b : Batch) (pc : LoopPC)
      (h : (resume_processing b).2.2 = false) :
      Step oracle ⟨b, pc⟩ ⟨(resume_processing b).1, pc⟩
  | cmdResumeStart (b : Batch) (h : (resume_processing b).2.2 = true) :
      Step oracle ⟨b, LoopPC.idle⟩ ⟨(resume_processing b).1, LoopPC.top⟩
  | cmdClear (b : Batch) (pc : LoopPC) :
      Step oracle ⟨b, pc⟩
        ⟨(clear_queue b).1, if b.remaining = [] then pc else LoopPC.idle⟩
  | cmdSkipPartial (b : Batch) (pc : LoopPC) (n : Nat)
      (h0 : 0 < n) (h1 : b.is_processing = true) (h2 : n < b.remaining.length) :
      Step oracle ⟨b, pc⟩ ⟨(skip_links n b).1, LoopPC.top⟩
  | cmdSkipAll (b : Batch) (pc : LoopPC) (n : Nat)
      (h0 : 0 < n) (h1 : b.is_processing = true) (h2 : b.remaining.length ≤ n) :
      Step oracle ⟨b, pc⟩
        ⟨(skip_links n b).1, if b.remaining = [] then pc else LoopPC.idle⟩
  | cmdSetCaption (b : Batch) (pc : LoopPC) (n : Nat) (text : String) :
      Step oracle ⟨b, pc⟩ ⟨(set_caption n text b).1, pc⟩
  | enqueueFresh (b : Batch) (links : List String) (uid : Nat)
      (h : b.all_links = []) (hl : links ≠ []) :
      Step oracle ⟨b, LoopPC.idle⟩
        ⟨(add_links_to_queue links uid b).1, LoopPC.top⟩
  | enqueueAppend (b : Batch) (pc : LoopPC) (links : List String) (uid : Nat)
      (h : b.all_links ≠ []) (h2 : (add_links_to_queue links uid b).2 = false) :
      Step oracle ⟨b, pc⟩ ⟨(add_links_to_queue links uid b).1, pc⟩
  | enqueueAppendStart (b : Batch) (links : List String) (uid : Nat)
      (h : b.all_links ≠ []) (h2 : (add_links_to_queue links uid b).2 = true) :
      Step oracle ⟨b, LoopPC.idle⟩
        ⟨(add_links_to_queue links uid b).1, LoopPC.top⟩

/-- The process starts with the empty module-level batch and no loop task. -/
def initConfig : Config := ⟨emptyBatch, LoopPC.idle⟩

/-- Configurations reachable from process start under a fixed oracle. -/
def Reachable (oracle : String → ItemOutcome) (c : Config) : Prop :=
  Relation.ReflTransGen (Step oracle) initConfig c

/-- Event classifiers used to count completion events, auto-reports,
uploads and caption notices in an emission trace. -/
def isCompletionEv : Event → Bool
  | Event.completion _ _ _ => true
  | _ => false

def isAutoReport : Event → Bool
  | Event.autoReport _ => true
  | _ => false

def isVideoSent : Event → Bool
  | Event.videoSent _ => true
  | _ => false

def isCaptionDisabled : Event → Bool
  | Event.captionDisabled => true
  | _ => false

def countEvents (p : Event → Bool) (evs : List Event) : Nat :=
  (evs.filter p).length

/-- The user-facing reason string attached to each failing outcome
(src/main.py lines 533, 542, 606). -/
def failMsg : ItemOutcome → String
  | ItemOutcome.fetchNone => "Video exceeds 49MB limit"
  | ItemOutcome.fetchMissing => "Download failed"
  | ItemOutcome.publishError msg => msg
  | ItemOutcome.published => ""

/-- Outcomes on which `process_single_link` takes a failure path. -/
def isFailureOutcome : ItemOutcome → Bool
  | ItemOutcome.published => false
  | _ => true

/-! Projection lemmas: which fields each notifier helper leaves
untouched, and which event classes it can emit. -/

@[simp] theorem update_status_message_processed (b : Batch) :
    (update_status_message b).1.processed = b.processed := by
  unfold update_status_message
  cases h : b.status_message_id <;> simp

@[simp] theorem update_status_message_failed (b : Batch) :
    (update_status_message b).1.failed = b.failed := by
  unfold update_status_message
  cases h : b.status_message_id <;> simp

@[simp] theorem update_status_message_remaining (b : Batch) :
    (update_status_message b).1.remaining = b.remaining := by
  unfold update_status_message
  cases h : b.status_message_id <;> simp

@[simp] theorem update_status_message_caption (b : Batch) :
    (update_status_message b).1.caption_settings = b.caption_settings := by
  unfold update_status_message
  cases h : b.status_message_id <;> simp

@[simp] theorem update_status_message_not_completion (b : Batch) :
    isCompletionEv (update_status_message b).2 = false := by
  unfold update_status_message
  cases h : b.status_message_id <;> simp [isCompletionEv]

@[simp] theorem send_remain_links_processed (b : Batch) :
    (send_remain_links b).1.processed = b.processed := by
  unfold send_remain_links
  split <;> [simp; split <;> simp]

@[simp] theorem send_remain_links_failed (b : Batch) :
    (send_remain_links b).1.failed = b.failed := by
  unfold send_remain_links
  split <;> [simp; split <;> simp]

@[simp] theorem send_remain_links_remaining (b : Batch) :
    (send_remain_links b).1.remaining = b.remaining := by
  unfold send_remain_links
  split <;> [simp; split <;> simp]

@[simp] theorem send_remain_links_caption (b : Batch) :
    (send_remain_links b).1.caption_settings = b.caption_settings := by
  unfold send_remain_links
  split <;> [simp; split <;> simp]

@[simp] theorem send_remain_links_filter (b : Batch) :
    (send_remain_links b).2.filter isCompletionEv = [] := by
  unfold send_remain_links
  split <;> [simp; split <;> simp [isCompletionEv]]

@[simp] theorem send_completion_notification_processed (b : Batch)
    (url : String) (s : Bool) (m : String) :
    (send_completion_notification b url s m).1.processed = b.processed := by
  by_cases hc : 0 < b.processed ∧ b.processed % 5 = 0 <;>
    simp [send_completion_notification, hc]

@[simp] theorem send_completion_notification_failed (b : Batch)
    (url : String) (s : Bool) (m : String) :
    (send_completion_notification b url s m).1.failed = b.failed := by
  by_cases hc : 0 < b.processed ∧ b.processed % 5 = 0 <;>
    simp [send_completion_notification, hc]

@[simp] theorem send_completion_notification_remaining (b : Batch)
    (url : String) (s : Bool) (m : String) :
    (send_completion_notification b url s m).1.remaining = b.remaining := by
  by_cases hc : 0 < b.processed ∧ b.processed % 5 = 0 <;>
    simp [send_completion_notification, hc]

@[simp] theorem send_completion_notification_caption (b : Batch)
    (url : String) (s : Bool) (m : String) :
    (send_completion_notification b url s m).1.caption_settings
      = b.caption_settings := by
  by_cases hc : 0 < b.processed ∧ b.processed % 5 = 0 <;>
    simp [send_completion_notification, hc]

@[simp] theorem send_completion_notification_filter (b : Batch)
    (url : String) (s : Bool) (m : String) :
    (send_completion_notification b url s m).2.filter isCompletionEv
      = [Event.completion url s m] := by
  by_cases hc : 0 < b.processed ∧ b.processed % 5 = 0 <;>
    simp [send_completion_notification, hc, isCompletionEv]

@[simp] theorem apply_caption_policy_processed (b : Batch) :
    (apply_caption_policy b).1.processed = b.processed := by
  by_cases ha : b.caption_settings.active = true <;>
    by_cases hr : b.caption_settings.remaining - 1 ≤ 0 <;>
    simp [apply_caption_policy, ha, hr]

@[simp] theorem apply_caption_policy_failed (b : Batch) :
    (apply_caption_policy b).1.failed = b.failed := by
  by_cases ha : b.caption_settings.active = true <;>
    by_cases hr : b.caption_settings.remaining - 1 ≤ 0 <;>
    simp [apply_caption_policy, ha, hr]

@[simp] theorem apply_caption_policy_remaining (b : Batch) :
    (apply_caption_policy b).1.remaining = b.remaining := by
  by_cases ha : b.caption_settings.active = true <;>
    by_cases hr : b.caption_settings.remaining - 1 ≤ 0 <;>
    simp [apply_caption_policy, ha, hr]

@[simp] theorem apply_caption_policy_filter (b : Batch) :
    (apply_caption_policy b).2.1.filter isCompletionEv = [] := by
  by_cases ha : b.caption_settings.active = true <;>
    by_cases hr : b.caption_settings.remaining - 1 ≤ 0 <;>
    simp [apply_caption_policy, ha, hr, isCompletionEv]

@[simp] theorem update_status_message_is_processing (b : Batch) :
    (update_status_message b).1.is_processing = b.is_processing := by
  unfold update_status_message
  cases h : b.status_message_id <;> simp

@[simp] theorem update_status_message_is_paused (b : Batch) :
    (update_status_message b).1.is_paused = b.is_paused := by
  unfold update_status_message
  cases h : b.status_message_id <;> simp

/-! Concrete batch states and oracles used to instantiate and to refute
the claims. -/

/-- A one-item active batch whose single locator will fail. -/
def cbX : Batch :=
  { emptyBatch with
    all_links := ["http://x"], remaining := ["http://x"],
    user_id := some 7, is_processing := true }

/-- An oracle under which every attempted item downloads and publishes. -/
def pubAll : String → ItemOutcome := fun _ => ItemOutcome.published

/-- An active batch right after a `processed` jump from 2 to 9 via
skip(7): 9 - 0 >= 5, yet 9 % 5 differs from 0. -/
def cb2 : Batch :=
  { emptyBatch with
    all_links := ["http://z"], remaining := ["http://z"],
    processed := 9, last_auto_send := 0, user_id := some 7,
    is_processing := true }

/-- C1 counterexample: a size-exceeded fetch for locator `http://x`
leaves the locator in `failed` and emits the failure completion event
with exactly the size-limit message, but `processedCount` is NOT one
larger: it is unchanged, because the code increments `processed` only on
the success path (src/main.py line 600) and never in a failure branch
(lines 549-553, 614-615). -/
theorem C1_counterexample :
    (process_single_link "http://x" ItemOutcome.fetchNone cbX).1.failed
      = ["http://x"] ∧
    (process_single_link "http://x" ItemOutcome.fetchNone cbX).2.1.filter
      isCompletionEv
      = [Event.completion "http://x" false "Video exceeds 49MB limit"] ∧
    (process_single_link "http://x" ItemOutcome.fetchNone cbX).1.processed = 0 ∧
    ¬ ((process_single_link "http://x" ItemOutcome.fetchNone cbX).1.processed
        = cbX.processed + 1) := by
  decide

/-- C1 (amended): for every item whose fetch or publish attempt fails
(including the size-exceeded case), the controller appends the locator to
`failed`, emits exactly one completion event — a failure event carrying
the outcome's reason — leaves `remaining` untouched inside
`process_single_link` (the loop then erases the head, line 647), and
returns `False` so the loop continues with the next item; but
`processedCount` is left UNCHANGED: it is incremented only by a
successful publish. -/
theorem C1_failure_handling (b : Batch) (url : String) (o : ItemOutcome)
    (h : isFailureOutcome o = true) :
    (process_single_link url o b).2.2 = false ∧
    (process_single_link url o b).1.processed = b.processed ∧
    (process_single_link url o b).1.failed = b.failed ++ [url] ∧
    (process_single_link url o b).1.remaining = b.remaining ∧
    (process_single_link url o b).2.1.filter isCompletionEv
      = [Event.completion url false (failMsg o)] := by
  cases o with
  | published => simp [isFailureOutcome] at h
  | fetchNone =>
      simp [process_single_link, failMsg, List.filter_cons, List.filter_append]
  | fetchMissing =>
      simp [process_single_link, failMsg, List.filter_cons, List.filter_append]
  | publishError msg =>
      simp [process_single_link, failMsg, List.filter_cons, List.filter_append]

/-- C1 witness: the amended failure handling at a concrete size-exceeded
fetch. -/
theorem C1_witness :
    (process_single_link "http://x" ItemOutcome.fetchNone cbX).2.2 = false ∧
    (process_single_link "http://x" ItemOutcome.fetchNone cbX).1.processed
      = cbX.processed ∧
    (process_single_link "http://x" ItemOutcome.fetchNone cbX).1.failed
      = cbX.failed ++ ["http://x"] ∧
    (process_single_link "http://x" ItemOutcome.fetchNone cbX).1.remaining
      = cbX.remaining ∧
    (process_single_link "http://x" ItemOutcome.fetchNone cbX).2.1.filter
      isCompletionEv
      = [Event.completion "http://x" false (failMsg ItemOutcome.fetchNone)] :=
  C1_failure_handling cbX "http://x" ItemOutcome.fetchNone rfl

/-- The exact condition under which the code emits an automatic
remaining-list artifact after a completion event: the modulo gate of
`send_completion_notification` (line 209) conjoined with the guards and
the watermark test of `send_remain_links` (lines 475-487). -/
def AutoFires (b : Batch) : Prop :=
  0 < b.processed ∧ b.processed % 5 = 0 ∧ b.remaining ≠ [] ∧
  b.user_id ≠ none ∧ ¬ ((b.processed : Int) - (b.last_auto_send : Int) < 5)

instance (b : Batch) : Decidable (AutoFires b) := by
  unfold AutoFires; infer_instance

/-- C2 (amended): after every completion event an auto-report (the full
`remaining` list) is emitted if and only if `processedCount` is a positive
multiple of 5 AND the queue is non-empty AND the owner id is set AND
`processedCount - lastAutoReportCount >= 5`; when it fires the watermark
is set to `processedCount`, otherwise it is unchanged.  The delta test
alone does not suffice: the modulo gate at line 209 runs first, so the
throttle is a modulo check refined by a watermark, not a pure watermark. -/
theorem C2_auto_report_gate (b : Batch) (url : String) (s : Bool) (m : String) :
    (send_completion_notification b url s m).2
      = Event.completion url s m ::
          (if AutoFires b then [Event.autoReport b.remaining] else []) ∧
    (send_completion_notification b url s m).1.last_auto_send
      = (if AutoFires b then b.processed else b.last_auto_send) := by
  by_cases hp : 0 < b.processed <;>
    by_cases hm : b.processed % 5 = 0 <;>
    by_cases hr : b.remaining = [] <;>
    by_cases hu : b.user_id = none <;>
    by_cases hw : (b.processed : Int) - (b.last_auto_send : Int) < 5 <;>
    simp [send_completion_notification, send_remain_links, AutoFires,
      hp, hm, hr, hu, hw]

/-- C2 counterexample: with `processedCount = 9` (the claim's own jump
from 2 to 9 via skip(7)) and watermark 0, the delta is 9 >= 5, the queue
is non-empty and the owner is set, yet the completion event after the
jump emits NO auto-report and leaves the watermark unchanged, because
9 % 5 is non-zero: the gate is a modulo check, not a pure watermark. -/
theorem C2_counterexample :
    5 ≤ (cb2.processed : Int) - (cb2.last_auto_send : Int) ∧
    cb2.remaining ≠ [] ∧ cb2.user_id ≠ none ∧
    Event.autoReport cb2.remaining ∉
      (send_completion_notification cb2 "http://z" false "error").2 ∧
    (send_completion_notification cb2 "http://z" false "error").1.last_auto_send
      = cb2.last_auto_send := by
  decide

/-- A four-item active batch with the caption policy just set to 3 uses
of text `X` (the claim's `setCaption(3, "X")`). -/
def cb3 : Batch :=
  { emptyBatch with
    all_links := ["http://1", "http://2", "http://3", "http://4"],
    remaining := ["http://1", "http://2", "http://3", "http://4"],
    user_id := some 7, is_processing := true,
    caption_settings := { active := true, remaining := 3, text := some "X" } }

/-- Oracle for the C3 run: the second item's upload raises, every other
item downloads and publishes. -/
def c3Oracle : String → ItemOutcome := fun u =>
  if u = "http://2" then ItemOutcome.publishError "network error"
  else ItemOutcome.published

/-- C3: the code decrements `caption_settings['remaining']` BEFORE
`send_video` (src/main.py lines 576-587 precede line 589), so a failed
publish consumes a caption use, contradicting the claim (and §9 of the
spec records that the corrected, intended contract is decrement on
confirmed success only).  Concretely: after `setCaption(3, "X")` with
outcomes success, publish-failure, success, success, only the first two
successful publishes carry caption `X` and the third carries none, with
the one-time disable notice emitted after the second success; and a
single failed publish on a caption-active state decrements the counter
even though the item is recorded as failed. -/
theorem C3_code_eval :
    (process_batch c3Oracle cb3).2.filter isVideoSent
      = [Event.videoSent (some "X"), Event.videoSent (some "X"),
          Event.videoSent none] ∧
    countEvents isCaptionDisabled (process_batch c3Oracle cb3).2 = 1 ∧
    (process_batch c3Oracle cb3).1.failed = ["http://2"] ∧
    (process_single_link "http://2" (ItemOutcome.publishError "network error")
        cb3).2.2 = false ∧
    (process_single_link "http://2" (ItemOutcome.publishError "network error")
        cb3).1.caption_settings.remaining
      = cb3.caption_settings.remaining - 1 := by
  decide

/-- An active batch with `processed = 3` and a single remaining locator,
used to compare skip-all with clear. -/
def cb4 : Batch :=
  { emptyBatch with
    all_links := ["http://a", "http://b"], remaining := ["http://b"],
    processed := 3, user_id := some 7, is_processing := true }

/-- C4 counterexample: skipping `n = 1 >= |remaining| = 1` on an active
batch with `processed = 3` yields exactly the `clear` state — including
`processedCount` RESET TO 0 — not `processedCount` reflecting the
skipped item as processed: `skip_links` simply delegates to `clear_queue`
(src/main.py line 317), which zeroes `processed` (line 455). -/
theorem C4_counterexample :
    cb4.remaining.length = 1 ∧ cb4.is_processing = true ∧ cb4.processed = 3 ∧
    (skip_links 1 cb4).1 = (clear_queue cb4).1 ∧
    (skip_links 1 cb4).1.processed = 0 ∧
    ¬ ((skip_links 1 cb4).1.processed = cb4.processed + 1) := by
  decide

/-- C4 (amended): for every active state with a non-empty queue,
`skip(n)` with `n >= |remaining|` produces EXACTLY the same final
`BatchState` as `clear`, with `processedCount` reset to 0 like every
other field, not preserved or increased. -/
theorem C4_skip_all_equals_clear (b : Batch) (n : Nat)
    (h0 : 0 < n) (h1 : b.is_processing = true)
    (h2 : b.remaining.length ≤ n) :
    (skip_links n b).1 = (clear_queue b).1 := by
  have hn : ¬ n = 0 := by omega
  simp [skip_links, hn, h1, h2]

/-- C4 witness: the amended equivalence at a concrete one-item batch. -/
theorem C4_witness : (skip_links 3 cb4).1 = (clear_queue cb4).1 :=
  C4_skip_all_equals_clear cb4 3 (by decide) rfl (by decide)

/-- State after a fresh one-item enqueue: the loop task is started. -/
def c6b1 : Batch := (add_links_to_queue ["http://a"] 7 emptyBatch).1

/-- State after the operator pauses while the item is in flight. -/
def c6b2 : Batch := (pause_processing c6b1).1

/-- State after the in-flight item finishes successfully and the loop
removes it from `remaining`. -/
def c6b3 : Batch :=
  { (process_single_link "http://a" ItemOutcome.published c6b2).1 with
    remaining :=
      (process_single_link "http://a" ItemOutcome.published c6b2).1.remaining.erase
        "http://a" }

/-- Final configuration after the loop's natural exit runs the `finally`
clause: `is_processing` cleared, `is_paused` still set. -/
def c6bad : Config :=
  ⟨{ c6b3 with is_processing := false, status_message_id := none }, LoopPC.idle⟩

/-- C6 counterexample: a reachable paused-but-inactive state.  Enqueue
one valid locator, pause while its processing is in flight, let the item
finish — the queue is now empty, so the `while` loop exits without ever
reaching the pause poll, and the `finally` clause (src/main.py
lines 667-669) clears `is_processing` WITHOUT clearing `is_paused`.
(`resume_processing` at lines 422-425 explicitly restarts a loop for
exactly this paused-and-not-processing state.) -/
theorem C6_counterexample :
    Reachable pubAll c6bad ∧
    c6bad.batch.is_paused = true ∧ c6bad.batch.is_processing = false := by
  refine ⟨?_, by decide, by decide⟩
  have s1 : Step pubAll initConfig ⟨c6b1, LoopPC.top⟩ :=
    Step.enqueueFresh emptyBatch ["http://a"] 7 rfl (by decide)
  have s2 : Step pubAll ⟨c6b1, LoopPC.top⟩ ⟨c6b1, LoopPC.inItem "http://a"⟩ :=
    Step.dispatch c6b1 "http://a" [] (by decide) (by decide) (by decide) (by decide)
  have s3 : Step pubAll ⟨c6b1, LoopPC.inItem "http://a"⟩
      ⟨c6b2, LoopPC.inItem "http://a"⟩ :=
    Step.cmdPause c6b1 (LoopPC.inItem "http://a")
  have s4 : Step pubAll ⟨c6b2, LoopPC.inItem "http://a"⟩ ⟨c6b3, LoopPC.top⟩ :=
    Step.finishItem c6b2 "http://a"
  have s5 : Step pubAll ⟨c6b3, LoopPC.top⟩ ⟨c6b3, LoopPC.exiting⟩ :=
    Step.loopDone c6b3 (by decide)
  have s6 : Step pubAll ⟨c6b3, LoopPC.exiting⟩ c6bad :=
    Step.loopFinally c6b3
  exact Relation.ReflTransGen.head s1 (Relation.ReflTransGen.head s2
    (Relation.ReflTransGen.head s3 (Relation.ReflTransGen.head s4
      (Relation.ReflTransGen.head s5 (Relation.ReflTransGen.single s6)))))

/-- C6 (amended): the pause operation itself can never create a
paused-but-inactive state — it preserves `isPaused → isActive` (it sets
`isPaused` only when `is_processing` holds, lines 394-402) — but the
invariant does NOT hold of every reachable state: loop termination while
paused clears `isActive` leaving `isPaused` set, as the counterexample
trace shows. -/
theorem C6_pause_preserves_invariant (b : Batch)
    (h : b.is_paused = true → b.is_processing = true) :
    (pause_processing b).1.is_paused = true →
      (pause_processing b).1.is_processing = true := by
  by_cases h1 : b.is_processing = false
  · simpa [pause_processing, h1] using h
  · by_cases h2 : b.is_paused
    · simp [pause_processing, h1, h2]
    · have h1' : b.is_processing = true := by
        revert h1; cases b.is_processing <;> simp
      simp [pause_processing, h1, h2, h1']

/-- C6 witness: pause applied to the active unpaused one-item batch does
pause it, and the result is still active. -/
theorem C6_witness : (pause_processing c6b1).1.is_processing = true :=
  C6_pause_preserves_invariant c6b1 (by decide) (by decide)

/-- Scenario A's batch: a malformed locator between two valid ones. -/
def scenA : Batch :=
  { emptyBatch with
    all_links := ["http://a", "not-a-url", "http://b"],
    remaining := ["http://a", "not-a-url", "http://b"],
    user_id := some 7, is_processing := true }

/-- A one-item batch whose locator carries no recognized scheme. -/
def w7 : Batch :=
  { emptyBatch with
    all_links := ["x"], remaining := ["x"], is_processing := true }

/-- C7: a head locator without a recognized scheme prefix is removed and
the loop continues, with no fetch attempt, no `failed` entry, no
completion event and no `processedCount` change: the loop iteration on
it equals the loop run on the rest of the queue (src/main.py
lines 641-644).  And scenario A: enqueueing
`["http://a", "not-a-url", "http://b"]` with both valid items succeeding
yields exactly 2 completion events, `processedCount = 2`, and an empty
`failed` set. -/
theorem C7_malformed_silent_skip (b : Batch) (url : String)
    (rest : List String) (oracle : String → ItemOutcome) (fuel : Nat)
    (h : b.remaining = url :: rest) (hv : validScheme url = false)
    (hp : b.is_paused = false) (ha : b.is_processing = true) :
    process_batch_iter oracle (fuel + 1) b
      = process_batch_iter oracle fuel { b with remaining := rest } ∧
    countEvents isCompletionEv (process_batch pubAll scenA).2 = 2 ∧
    (process_batch pubAll scenA).1.processed = 2 ∧
    (process_batch pubAll scenA).1.failed = [] := by
  refine ⟨?_, by decide, by decide, by decide⟩
  conv_lhs => rw [process_batch_iter]
  rw [h]
  simp [hp, ha, hv, List.erase_cons_head]

/-- C7 witness: the malformed-head step at a concrete one-item queue,
together with the scenario-A facts. -/
theorem C7_witness :
    process_batch_iter pubAll 1 w7
      = process_batch_iter pubAll 0 { w7 with remaining := [] } ∧
    countEvents isCompletionEv (process_batch pubAll scenA).2 = 2 ∧
    (process_batch pubAll scenA).1.processed = 2 ∧
    (process_batch pubAll scenA).1.failed = [] :=
  C7_malformed_silent_skip w7 "x" [] pubAll 0 rfl (by decide) rfl rfl

/-- A three-item active batch with one item already counted. -/
def w8 : Batch :=
  { emptyBatch with
    all_links := ["http://a", "http://b", "http://c"],
    remaining := ["http://a", "http://b", "http://c"],
    processed := 1, user_id := some 7, is_processing := true }

/-- C8: for every active state and every `n` with `0 < n < |remaining|`,
`skip(n)` removes exactly the first `n` locators (order of the rest
preserved via `drop`), adds `n` to `processedCount`, leaves `failed`
untouched (the full record equality keeps every unnamed field of `b`),
emits the skipped list as a downloadable artifact, and restarts the
processing loop (third component `true`; src/main.py lines 328-353). -/
theorem C8_skip_partial (b : Batch) (n : Nat)
    (h0 : 0 < n) (h1 : b.is_processing = true) (h2 : n < b.remaining.length) :
    skip_links n b
      = ({ b with
            remaining := b.remaining.drop n,
            processed := b.processed + n,
            is_processing := true },
          ([Event.skippedArtifact (b.remaining.take n), Event.reply false],
            true)) := by
  have hn : ¬ n = 0 := by omega
  have hl : ¬ (b.remaining.length ≤ n) := by omega
  simp [skip_links, hn, h1, hl]

/-- C8 witness: skipping 1 of 3 remaining items. -/
theorem C8_witness :
    skip_links 1 w8
      = ({ w8 with
            remaining := w8.remaining.drop 1,
            processed := w8.processed + 1,
            is_processing := true },
          ([Event.skippedArtifact (w8.remaining.take 1), Event.reply false],
            true)) :=
  C8_skip_partial w8 1 (by decide) rfl (by decide)

/-- C9: pause is idempotent-safe: for every state, a second pause leaves
the `BatchState` identical to one pause and is reported as a no-op
(lines 394-399 return before mutating when already paused or inactive);
likewise pause on any inactive state changes no field and reports a
no-op. -/
theorem C9_pause_idempotent (b : Batch) :
    (pause_processing (pause_processing b).1).1 = (pause_processing b).1 ∧
    (pause_processing (pause_processing b).1).2 = [Event.reply true] ∧
    (pause_processing { b with is_processing := false }).1
      = { b with is_processing := false } ∧
    (pause_processing { b with is_processing := false }).2
      = [Event.reply true] := by
  refine ⟨?_, ?_, by simp [pause_processing], by simp [pause_processing]⟩ <;>
  · by_cases h1 : b.is_processing = false
    · simp [pause_processing, h1]
    · by_cases h2 : b.is_paused
      · simp [pause_processing, h1, h2]
      · simp [pause_processing, h1, h2]

/-- The claim C10's five-item batch, all of which will succeed. -/
def cb10 : Batch :=
  { emptyBatch with
    all_links := ["http://1", "http://2", "http://3", "http://4", "http://5"],
    remaining := ["http://1", "http://2", "http://3", "http://4", "http://5"],
    user_id := some 7, is_processing := true }

/-- C10 counterexample: in a batch of exactly 5 items that all succeed,
the run emits exactly ONE auto-report, not none: the completion event of
the 5th item fires while that item is still in `remaining` (the loop
removes it only afterwards, line 647), so the emptiness guard of
`send_remain_links` does not apply and the artifact listing
`["http://5"]` is sent — even though the queue is empty once the run
ends. -/
theorem C10_counterexample :
    (process_batch pubAll cb10).2.filter isAutoReport
      = [Event.autoReport ["http://5"]] ∧
    countEvents isAutoReport (process_batch pubAll cb10).2 = 1 ∧
    (process_batch pubAll cb10).1.remaining = [] := by
  decide

/-- C10 (amended): whenever `remaining` is empty or the owner identity is
unset, `send_remain_links` emits nothing and leaves every field —
including the `lastAutoReportCount` watermark — unchanged, even when the
watermark delta is large; but this does NOT make a 5-item batch
report-free, because the 5th item is still in `remaining` when its
completion event runs the auto-report check. -/
theorem C10_empty_or_unowned_guard (b : Batch)
    (h : b.remaining = [] ∨ b.user_id = none) :
    send_remain_links b = (b, []) := by
  unfold send_remain_links
  rw [if_pos h]

/-- C10 witness: the guard at the empty batch. -/
theorem C10_witness : send_remain_links emptyBatch = (emptyBatch, []) :=
  C10_empty_or_unowned_guard emptyBatch (Or.inl rfl)
